import Mathlib

/-
Verification of the datasets API module
(hmalib/lambdas/api/datasets_api.py): a CRUD facade over a key-value
configuration store of privacy-group dataset records.

The store client (HMAConfig / ThreatExchangeConfig persistence) and the
helpers create_privacy_group_if_not_exists / sync_privacy_groups live
outside the given source file; they are modelled from the spec where
noted.  Everything else is a direct shallow embedding of the Python
source.
-/

set_option autoImplicit false

namespace DatasetsApi

/-- A caller-supplied privacy-group identifier: the Python source declares
it as `t.Union[int, str]`. -/
inductive PGId where
  | int : Int → PGId
  | str : String → PGId
deriving DecidableEq, Repr

/-- Python `str(v)` applied to an `int`-or-`str` value: the decimal form of
an integer (with a leading minus sign when negative), or the string itself.
Python f-string interpolation of such a value produces the same text. -/
def pyStr : PGId → String
  | .int n => toString n
  | .str s => s

/-- The code points CPython's `Py_UNICODE_ISSPACE` accepts, which
`int(s)` strips from both ends of its argument. -/
def pyWhitespace (c : Char) : Bool :=
  let n := c.toNat
  (0x9 ≤ n && n ≤ 0xD) || (0x1C ≤ n && n ≤ 0x1F) || n == 0x20 ||
    n == 0x85 || n == 0xA0 || n == 0x1680 ||
    (0x2000 ≤ n && n ≤ 0x200A) || n == 0x2028 || n == 0x2029 ||
    n == 0x202F || n == 0x205F || n == 0x3000

/-- The zero code point of every run of Unicode decimal digits (category
Nd, Unicode 13.0 as shipped with CPython 3.9); each run is the ten
consecutive code points for the digit values 0 through 9. -/
def ndZeros : List Nat :=
  [0x30, 0x660, 0x6F0, 0x7C0, 0x966, 0x9E6, 0xA66, 0xAE6, 0xB66, 0xBE6,
   0xC66, 0xCE6, 0xD66, 0xDE6, 0xE50, 0xED0, 0xF20, 0x1040, 0x1090,
   0x17E0, 0x1810, 0x1946, 0x19D0, 0x1A80, 0x1A90, 0x1B50, 0x1BB0,
   0x1C40, 0x1C50, 0xA620, 0xA8D0, 0xA900, 0xA9D0, 0xA9F0, 0xAA50,
   0xABF0, 0xFF10, 0x104A0, 0x10D30, 0x11066, 0x110F0, 0x11136,
   0x111D0, 0x112F0, 0x11450, 0x114D0, 0x11650, 0x116C0, 0x11730,
   0x118E0, 0x11950, 0x11C50, 0x11D50, 0x11DA0, 0x16A60, 0x16B50,
   0x1D7CE, 0x1D7D8, 0x1D7E2, 0x1D7EC, 0x1D7F6, 0x1E140, 0x1E2F0,
   0x1E950, 0x1FBF0]

/-- The decimal value of a Unicode decimal digit (category Nd), `none`
for any other character; CPython's `int(s)` accepts exactly these digit
characters, each contributing its decimal value. -/
def pyDigit? (c : Char) : Option Nat :=
  (ndZeros.find? (fun z => z ≤ c.toNat && c.toNat ≤ z + 9)).map
    (fun z => c.toNat - z)

/-- Continues parsing a digit string after at least one digit has been
read: further digits extend the value, and a single underscore is allowed
strictly between two digits. -/
def parseDigitsAux (acc : Nat) : List Char → Option Nat
  | [] => some acc
  | '_' :: c :: rest =>
      match pyDigit? c with
      | some d => parseDigitsAux (acc * 10 + d) rest
      | none => none
  | ['_'] => none
  | c :: rest =>
      match pyDigit? c with
      | some d => parseDigitsAux (acc * 10 + d) rest
      | none => none

/-- Parses an entire character list as a digit string: one or more
Unicode decimal digits with single underscores allowed between digits
(no leading or trailing underscore, no two in a row). -/
def parseDigits : List Char → Option Nat
  | [] => none
  | c :: rest =>
      match pyDigit? c with
      | some d => parseDigitsAux d rest
      | none => none

/-- Python `int(s)` on a string: after stripping Unicode whitespace from
both ends, an optional ASCII sign followed by a digit string (Unicode
decimal digits with underscore separators between digits) yields the
corresponding integer; anything else raises `ValueError` (modelled as
`none`).  So `1_0`, a whitespace-padded `5` and non-ASCII decimal digits
such as the Arabic-Indic five are accepted, while an empty string, a
misplaced underscore or any non-digit character is rejected. -/
def pyInt (s : String) : Option Int :=
  let t := ((s.data.dropWhile pyWhitespace).reverse.dropWhile
    pyWhitespace).reverse
  match t with
  | '-' :: rest => (parseDigits rest).map (fun n => -(n : Int))
  | '+' :: rest => (parseDigits rest).map (fun n => (n : Int))
  | l => (parseDigits l).map (fun n => (n : Int))

/-- Modelled from the spec: the `ThreatExchangeConfig` store record
(hmalib.common.fetcher_models, not under src/).  `name` is the store key;
the spec's DatasetConfig lists the remaining fields:
privacy_group_name, description, fetcher_active, matcher_active,
write_back, in_use.  The record's `privacy_group_id` is its key. -/
structure ThreatExchangeConfig where
  name : String
  privacy_group_name : String
  description : String
  fetcher_active : Bool
  matcher_active : Bool
  write_back : Bool
  in_use : Bool
deriving DecidableEq, Repr

/-- The record's identifier is its store key (spec: `privacy_group_id` is
the sole identity key). -/
def ThreatExchangeConfig.privacy_group_id (c : ThreatExchangeConfig) : String :=
  c.name

/-- The configuration store: records in the store's native enumeration
order. -/
abbrev Store := List ThreatExchangeConfig

/-- Modelled from the spec: store get-one-by-key (the non-raising `get`
underlying `ThreatExchangeConfig.getx`): the record whose key equals
`key`, if any. -/
def ThreatExchangeConfig.get (s : Store) (key : String) : Option ThreatExchangeConfig :=
  s.find? (fun c => c.name == key)

/-- Modelled from the spec: `ThreatExchangeConfig.get_all()` returns all
records in the store's native enumeration order. -/
def ThreatExchangeConfig.get_all (s : Store) : List ThreatExchangeConfig :=
  s

/-- Modelled from the spec: `hmaconfig.update_config` persists an updated
record under its key (upsert: replace the record with that key, or append
it if absent). -/
def update_config (s : Store) (c : ThreatExchangeConfig) : Store :=
  if s.any (fun r => r.name == c.name) then
    s.map (fun r => if r.name == c.name then c else r)
  else
    s ++ [c]

/-- Modelled from the spec: `hmaconfig.delete_config` removes the record
with the given record's key from the store. -/
def delete_config (s : Store) (c : ThreatExchangeConfig) : Store :=
  s.filter (fun r => r.name != c.name)

/-- Modelled from the spec: `create_privacy_group_if_not_exists`
(hmalib.common.threatexchange_config, not under src/): if a record with
the given id already exists it is left unchanged (no overwrite, no
error); otherwise a new record with the supplied fields is inserted. -/
def create_privacy_group_if_not_exists (s : Store) (privacy_group_id : String)
    (privacy_group_name : String) (description : String) (in_use : Bool)
    (fetcher_active : Bool) (matcher_active : Bool) (write_back : Bool) : Store :=
  match ThreatExchangeConfig.get s privacy_group_id with
  | some _ => s
  | none =>
      s ++ [⟨privacy_group_id, privacy_group_name, description,
             fetcher_active, matcher_active, write_back, in_use⟩]

/-- Modelled from the spec: a collaboration enumerated by the external
source, "each with id/name/description". -/
structure RemoteCollab where
  id : String
  name : String
  description : String
deriving DecidableEq, Repr

/-- Modelled from the spec: `sync_privacy_groups` reconciles the store
with the remote collaboration list: for each remote collaboration not
present locally it creates a record with the same idempotent semantics as
Create (`in_use = true`); existing records are left as-is.  The spec does
not fix the boolean defaults of freshly synced records; `true` is chosen
here, and no claim depends on the choice. -/
def sync_privacy_groups (s : Store) (remote : List RemoteCollab) : Store :=
  remote.foldl
    (fun acc collab =>
      create_privacy_group_if_not_exists acc collab.id collab.name
        collab.description true true true true)
    s

/-- Errors surfaced by the API: `NotFound` carries the missing key
(`ThreatExchangeConfig.getx`), `MalformedRequest` a missing request field
(the middleware's translation of `KeyError`), `ValueError` a failed
`int()` conversion. -/
inductive ApiError where
  | NotFound : String → ApiError
  | MalformedRequest : ApiError
  | ValueError : ApiError
deriving DecidableEq, Repr

/-- The wire record `Dataset` of the source: all seven fields.  Its
`privacy_group_id` is `t.Union[int, str]`. -/
structure Dataset where
  privacy_group_id : PGId
  privacy_group_name : String
  description : String
  fetcher_active : Bool
  matcher_active : Bool
  write_back : Bool
  in_use : Bool
deriving DecidableEq, Repr

/-- `Dataset.from_collab` of the source: copies the seven fields of the
config record verbatim (the config's `privacy_group_id` is its string
key). -/
def Dataset.from_collab (collab : ThreatExchangeConfig) : Dataset :=
  ⟨.str collab.privacy_group_id, collab.privacy_group_name,
   collab.description, collab.fetcher_active, collab.matcher_active,
   collab.write_back, collab.in_use⟩

/-- `UpdateDatasetRequest` of the source, with the dataclass's declared
field types (a well-typed parsed request). -/
structure UpdateDatasetRequest where
  privacy_group_id : PGId
  fetcher_active : Bool
  matcher_active : Bool
  write_back : Bool
deriving DecidableEq, Repr

/-- `CreateDatasetRequest` of the source, with the dataclass's declared
field types (a well-typed parsed request). -/
structure CreateDatasetRequest where
  privacy_group_id : PGId
  privacy_group_name : String
  description : String
  fetcher_active : Bool
  matcher_active : Bool
  write_back : Bool
deriving DecidableEq, Repr

/-- `CreateDatasetResponse` of the source. -/
structure CreateDatasetResponse where
  response : String
deriving DecidableEq, Repr

/-- `DeleteDatasetResponse` of the source. -/
structure DeleteDatasetResponse where
  response : String
deriving DecidableEq, Repr

/-- `SyncDatasetResponse` of the source. -/
structure SyncDatasetResponse where
  response : String
deriving DecidableEq, Repr

/-- `DatasetsResponse` of the source. -/
structure DatasetsResponse where
  datasets_response : List Dataset
deriving DecidableEq, Repr

/-- A JSON scalar value as found in a request payload dict. -/
inductive JValue where
  | jstr : String → JValue
  | jint : Int → JValue
  | jbool : Bool → JValue
  | jnull : JValue
deriving DecidableEq, Repr

/-- A request payload: a JSON object, keys to scalar values. -/
abbrev Dict := List (String × JValue)

/-- The object `CreateDatasetRequest.from_dict` actually builds: the
Python dataclass stores whatever values the dict held, without checking
them against the declared field types. -/
structure CreateDatasetRequestRaw where
  privacy_group_id : JValue
  privacy_group_name : JValue
  description : JValue
  fetcher_active : JValue
  matcher_active : JValue
  write_back : JValue
deriving DecidableEq, Repr

/-- Python `d[k]`: the value under `k`, or `KeyError` — surfaced by the
middleware as `MalformedRequest`. -/
def dictGet (d : Dict) (k : String) : Except ApiError JValue :=
  match d.lookup k with
  | some v => .ok v
  | none => .error .MalformedRequest

/-- `CreateDatasetRequest.from_dict` of the source: reads the six keys
from the dict; a missing key raises (`MalformedRequest`); values are not
type-checked. -/
def CreateDatasetRequest.from_dict (d : Dict) : Except ApiError CreateDatasetRequestRaw := do
  let pgid ← dictGet d "privacy_group_id"
  let pgname ← dictGet d "privacy_group_name"
  let desc ← dictGet d "description"
  let fa ← dictGet d "fetcher_active"
  let ma ← dictGet d "matcher_active"
  let wb ← dictGet d "write_back"
  pure ⟨pgid, pgname, desc, fa, ma, wb⟩

/-- The `datasets` route (GET /): one wire record per stored config, via
`Dataset.from_collab`, in store enumeration order. -/
def datasets (s : Store) : DatasetsResponse :=
  ⟨(ThreatExchangeConfig.get_all s).map Dataset.from_collab⟩

/-- The `update_dataset` route (POST /update): look the record up by
`str(privacy_group_id)` (`getx` raises `NotFound` when absent), overwrite
its `fetcher_active`, `write_back`, `matcher_active`, persist via
`update_config`, then build the response `Dataset` from the persisted
record's `__dict__` with `privacy_group_id` set to its `name`:
`Dataset.from_dict` applies `int()` to that string, which raises
`ValueError` when `name` is not a decimal-integer string — after the
write has been persisted. -/
def update_dataset (s : Store) (request : UpdateDatasetRequest) :
    Store × Except ApiError Dataset :=
  match ThreatExchangeConfig.get s (pyStr request.privacy_group_id) with
  | none => (s, .error (.NotFound (pyStr request.privacy_group_id)))
  | some config =>
      let config1 := { config with
        fetcher_active := request.fetcher_active,
        write_back := request.write_back,
        matcher_active := request.matcher_active }
      let s1 := update_config s config1
      match pyInt config1.name with
      | none => (s1, .error .ValueError)
      | some k =>
          (s1, .ok ⟨.int k, config1.privacy_group_name, config1.description,
                    config1.fetcher_active, config1.matcher_active,
                    config1.write_back, config1.in_use⟩)

/-- The `create_dataset` route (POST /create): delegates to
`create_privacy_group_if_not_exists` with `str(privacy_group_id)` and
`in_use = true`, and answers with a message interpolating the request's
id. -/
def create_dataset (s : Store) (request : CreateDatasetRequest) :
    Store × CreateDatasetResponse :=
  (create_privacy_group_if_not_exists s (pyStr request.privacy_group_id)
     request.privacy_group_name request.description true
     request.fetcher_active request.matcher_active request.write_back,
   ⟨"Created dataset " ++ pyStr request.privacy_group_id⟩)

/-- The `sync_datasets` route (POST /sync): runs `sync_privacy_groups`
and answers with a fixed message. -/
def sync_datasets (s : Store) (remote : List RemoteCollab) :
    Store × SyncDatasetResponse :=
  (sync_privacy_groups s remote, ⟨"Privacy groups are up to date"⟩)

/-- The `delete_dataset` route (POST /delete/key): look the record up by
`str(key)` (`getx` raises `NotFound` when absent), delete it via
`delete_config`, and answer with a fixed message. -/
def delete_dataset (s : Store) (key : PGId) :
    Store × Except ApiError DeleteDatasetResponse :=
  match ThreatExchangeConfig.get s (pyStr key) with
  | none => (s, .error (.NotFound (pyStr key)))
  | some config => (delete_config s config, .ok ⟨"The privacy group is deleted"⟩)

/-- The record produced by Update's three in-place field assignments on a
fetched config: `fetcher_active`, `write_back` and `matcher_active` from
the request, every other field untouched. -/
def applyUpdate (c : ThreatExchangeConfig) (r : UpdateDatasetRequest) :
    ThreatExchangeConfig :=
  { c with
    fetcher_active := r.fetcher_active,
    write_back := r.write_back,
    matcher_active := r.matcher_active }

/-- A concrete create payload whose six required keys are all present but
whose `fetcher_active` value is a string, not a boolean. -/
def mistypedCreatePayload : Dict :=
  [("privacy_group_id", .jstr "1"), ("privacy_group_name", .jstr "G"),
   ("description", .jstr "d"), ("fetcher_active", .jstr "yes"),
   ("matcher_active", .jbool true), ("write_back", .jbool false)]

/- ### Helper lemmas about the store -/

/-- A record found under `key` has `key` as its name. -/
theorem name_eq_of_get (s : Store) (key : String) (c : ThreatExchangeConfig)
    (h : ThreatExchangeConfig.get s key = some c) : c.name = key := by
  have := List.find?_some h
  simpa using this

/-- Replacing the record that carries `key` makes the replacement the record
found under `key`. -/
theorem find?_map_replace (t : Store) (key : String) (c c1 : ThreatExchangeConfig)
    (h : t.find? (fun r => r.name == key) = some c) (hname : c1.name = key) :
    (t.map (fun r => if r.name == c1.name then c1 else r)).find?
      (fun r => r.name == key) = some c1 := by
  induction t with
  | nil => simp at h
  | cons a t ih =>
    by_cases ha : a.name = key
    · rw [List.map_cons]
      have hif : (if a.name == c1.name then c1 else a) = c1 := by
        simp [hname, ha]
      rw [hif, List.find?_cons_of_pos _ (by simp [hname])]
    · rw [List.find?_cons_of_neg _ (by simp [ha])] at h
      rw [List.map_cons, List.find?_cons_of_neg _ (by simp [hname, ha])]
      exact ih h

/-- After `update_config s c1`, where `c1` carries the key under which some
record was found in `s`, the record found under that key is `c1`. -/
theorem get_update_config_of_get (s : Store) (key : String) (c c1 : ThreatExchangeConfig)
    (h : ThreatExchangeConfig.get s key = some c) (hname : c1.name = key) :
    ThreatExchangeConfig.get (update_config s c1) key = some c1 := by
  have hany : s.any (fun r => r.name == c1.name) = true := by
    refine List.any_eq_true.mpr ⟨c, List.mem_of_find?_eq_some h, ?_⟩
    simp [hname, name_eq_of_get s key c h]
  unfold update_config
  rw [if_pos hany]
  exact find?_map_replace s key c c1 h hname

/-- Appending a record carrying an otherwise absent key makes it the
record found under that key. -/
theorem get_append_of_none (s : Store) (c : ThreatExchangeConfig) (key : String)
    (h : ThreatExchangeConfig.get s key = none) (hc : c.name = key) :
    ThreatExchangeConfig.get (s ++ [c]) key = some c := by
  unfold ThreatExchangeConfig.get at *
  rw [List.find?_append, h]
  subst hc
  simp [List.find?]

/-- A key absent from an extended store is absent from its prefix. -/
theorem get_prefix_none (s t : Store) (key : String)
    (h : ThreatExchangeConfig.get (s ++ t) key = none) :
    ThreatExchangeConfig.get s key = none := by
  unfold ThreatExchangeConfig.get at *
  rw [List.find?_append] at h
  exact (Option.or_eq_none.mp h).1

/-- When no record of `s` carries `key`, no wire record listed from `s` has
`key` as its identifier. -/
theorem filter_map_from_collab_none (s : Store) (key : String)
    (h : ThreatExchangeConfig.get s key = none) :
    (s.map Dataset.from_collab).filter
      (fun d => d.privacy_group_id == PGId.str key) = [] := by
  rw [List.filter_eq_nil_iff]
  intro d hd
  rcases List.mem_map.mp hd with ⟨c, hc, rfl⟩
  have hne := List.find?_eq_none.mp h c hc
  simp [Dataset.from_collab, ThreatExchangeConfig.privacy_group_id] at hne ⊢
  exact hne

/- ### Claims -/

/-- Claim C1: for every stored record and every update request whose
privacy_group_id matches that record, Update overwrites exactly
fetcher_active, matcher_active and write_back with the request's values
and leaves privacy_group_name, description and in_use equal to their
values before the call. -/
theorem update_dataset_overwrites_exactly_the_three_flags
    (s : Store) (r : UpdateDatasetRequest) (c : ThreatExchangeConfig)
    (h : ThreatExchangeConfig.get s (pyStr r.privacy_group_id) = some c) :
    ∃ c1, ThreatExchangeConfig.get (update_dataset s r).1
        (pyStr r.privacy_group_id) = some c1 ∧
      c1.fetcher_active = r.fetcher_active ∧
      c1.matcher_active = r.matcher_active ∧
      c1.write_back = r.write_back ∧
      c1.privacy_group_name = c.privacy_group_name ∧
      c1.description = c.description ∧
      c1.in_use = c.in_use := by
  have hcname : c.name = pyStr r.privacy_group_id := name_eq_of_get _ _ _ h
  refine ⟨applyUpdate c r, ?_, rfl, rfl, rfl, rfl, rfl, rfl⟩
  have hfst : (update_dataset s r).1 = update_config s (applyUpdate c r) := by
    unfold update_dataset
    rw [h]
    cases hp : pyInt c.name <;> simp [hp, applyUpdate]
  rw [hfst]
  exact get_update_config_of_get s _ c _ h hcname

/-- Witness for C1 at a concrete store and request. -/
theorem update_dataset_overwrites_exactly_the_three_flags_witness :
    ∃ c1, ThreatExchangeConfig.get
        (update_dataset [⟨"1", "G", "d", false, false, false, true⟩]
          ⟨.str "1", true, true, true⟩).1
        (pyStr (PGId.str "1")) = some c1 ∧
      c1.fetcher_active = true ∧
      c1.matcher_active = true ∧
      c1.write_back = true ∧
      c1.privacy_group_name = "G" ∧
      c1.description = "d" ∧
      c1.in_use = true :=
  update_dataset_overwrites_exactly_the_three_flags
    [⟨"1", "G", "d", false, false, false, true⟩]
    ⟨.str "1", true, true, true⟩
    ⟨"1", "G", "d", false, false, false, true⟩ (by decide)

/-- Claim C3: Update on an id absent from the store fails with NotFound
and leaves the store exactly as it was. -/
theorem update_dataset_notfound_no_mutation
    (s : Store) (r : UpdateDatasetRequest)
    (h : ThreatExchangeConfig.get s (pyStr r.privacy_group_id) = none) :
    update_dataset s r =
      (s, .error (.NotFound (pyStr r.privacy_group_id))) := by
  unfold update_dataset
  rw [h]

/-- Witness for C3 at a concrete store and request. -/
theorem update_dataset_notfound_no_mutation_witness :
    update_dataset [⟨"2", "G", "d", false, false, false, true⟩]
        ⟨.str "1", true, true, true⟩ =
      ([⟨"2", "G", "d", false, false, false, true⟩],
       .error (.NotFound "1")) :=
  update_dataset_notfound_no_mutation
    [⟨"2", "G", "d", false, false, false, true⟩]
    ⟨.str "1", true, true, true⟩ (by decide)

/-- Claim C10: Update, Create and Delete normalize the caller-supplied id
with str() before any store access, so each operation behaves identically
on an id `v` and on its string form `str(v)`. -/
theorem operations_normalize_id_by_str
    (s : Store) (r : UpdateDatasetRequest) (cr : CreateDatasetRequest)
    (k : PGId) :
    update_dataset s
        { r with privacy_group_id := .str (pyStr r.privacy_group_id) } =
      update_dataset s r ∧
    create_dataset s
        { cr with privacy_group_id := .str (pyStr cr.privacy_group_id) } =
      create_dataset s cr ∧
    delete_dataset s (.str (pyStr k)) = delete_dataset s k :=
  ⟨rfl, rfl, rfl⟩

/-- Claim C2: Create is idempotent-if-absent: when a record with the
requested id already exists, Create leaves the store unchanged and raises
no error, so a second Create with the same id (same or different field
values) is a no-op and only the first call's data persists. -/
theorem create_dataset_idempotent_if_present
    (s : Store) (r r' : CreateDatasetRequest)
    (hid : pyStr r'.privacy_group_id = pyStr r.privacy_group_id) :
    (∀ c, ThreatExchangeConfig.get s (pyStr r.privacy_group_id) = some c →
      (create_dataset s r).1 = s) ∧
    (create_dataset (create_dataset s r).1 r').1 = (create_dataset s r).1 := by
  have hpresent : ∀ (t : Store) (rq : CreateDatasetRequest)
      (c : ThreatExchangeConfig),
      ThreatExchangeConfig.get t (pyStr rq.privacy_group_id) = some c →
      (create_dataset t rq).1 = t := by
    intro t rq c hc
    simp [create_dataset, create_privacy_group_if_not_exists, hc]
  constructor
  · intro c hc
    exact hpresent s r c hc
  · cases hg : ThreatExchangeConfig.get s (pyStr r.privacy_group_id) with
    | some c =>
        rw [hpresent s r c hg]
        exact hpresent s r' c (by rw [hid]; exact hg)
    | none =>
        have h1 : (create_dataset s r).1 =
            s ++ [⟨pyStr r.privacy_group_id, r.privacy_group_name,
                   r.description, r.fetcher_active, r.matcher_active,
                   r.write_back, true⟩] := by
          simp [create_dataset, create_privacy_group_if_not_exists, hg]
        have h2 : ThreatExchangeConfig.get (create_dataset s r).1
            (pyStr r'.privacy_group_id) =
            some ⟨pyStr r.privacy_group_id, r.privacy_group_name,
                  r.description, r.fetcher_active, r.matcher_active,
                  r.write_back, true⟩ := by
          rw [hid, h1]
          exact get_append_of_none s _ _ hg rfl
        exact hpresent _ r' _ h2

/-- Witness for C2: a string id and the matching integer id address the
same record; the second create is a no-op. -/
theorem create_dataset_idempotent_if_present_witness :
    (create_dataset [⟨"1", "G", "d", false, false, false, true⟩]
        ⟨.str "1", "N", "e", true, true, true⟩).1 =
      [⟨"1", "G", "d", false, false, false, true⟩] ∧
    (create_dataset
        (create_dataset [⟨"1", "G", "d", false, false, false, true⟩]
          ⟨.str "1", "N", "e", true, true, true⟩).1
        ⟨.int 1, "M", "f", false, true, false⟩).1 =
      (create_dataset [⟨"1", "G", "d", false, false, false, true⟩]
        ⟨.str "1", "N", "e", true, true, true⟩).1 :=
  ⟨(create_dataset_idempotent_if_present
      [⟨"1", "G", "d", false, false, false, true⟩]
      ⟨.str "1", "N", "e", true, true, true⟩
      ⟨.int 1, "M", "f", false, true, false⟩ (by decide)).1
      ⟨"1", "G", "d", false, false, false, true⟩ (by decide),
   (create_dataset_idempotent_if_present
      [⟨"1", "G", "d", false, false, false, true⟩]
      ⟨.str "1", "N", "e", true, true, true⟩
      ⟨.int 1, "M", "f", false, true, false⟩ (by decide)).2⟩

/-- Claim C4: Create with a fresh id inserts a record carrying the
request's field values and in_use = true under the key str(id), answers
"Created dataset <id>", and a subsequent List contains exactly one
record with that id, carrying those values. -/
theorem create_dataset_fresh_inserts
    (s : Store) (r : CreateDatasetRequest)
    (h : ThreatExchangeConfig.get s (pyStr r.privacy_group_id) = none) :
    (create_dataset s r).2 =
      ⟨"Created dataset " ++ pyStr r.privacy_group_id⟩ ∧
    (create_dataset s r).1 =
      s ++ [⟨pyStr r.privacy_group_id, r.privacy_group_name, r.description,
             r.fetcher_active, r.matcher_active, r.write_back, true⟩] ∧
    (datasets (create_dataset s r).1).datasets_response.filter
        (fun d => d.privacy_group_id == PGId.str (pyStr r.privacy_group_id)) =
      [⟨.str (pyStr r.privacy_group_id), r.privacy_group_name, r.description,
        r.fetcher_active, r.matcher_active, r.write_back, true⟩] := by
  have h1 : (create_dataset s r).1 =
      s ++ [⟨pyStr r.privacy_group_id, r.privacy_group_name, r.description,
             r.fetcher_active, r.matcher_active, r.write_back, true⟩] := by
    simp [create_dataset, create_privacy_group_if_not_exists, h]
  refine ⟨rfl, h1, ?_⟩
  rw [h1]
  unfold datasets ThreatExchangeConfig.get_all
  rw [List.map_append, List.filter_append, filter_map_from_collab_none s _ h]
  simp [Dataset.from_collab, ThreatExchangeConfig.privacy_group_id]

/-- Witness for C4 at the spec's own example id 123. -/
theorem create_dataset_fresh_inserts_witness :
    (create_dataset [] ⟨.str "123", "G", "d", true, false, false⟩).2 =
      ⟨"Created dataset 123"⟩ ∧
    (create_dataset [] ⟨.str "123", "G", "d", true, false, false⟩).1 =
      [⟨"123", "G", "d", true, false, false, true⟩] :=
  ⟨(create_dataset_fresh_inserts []
      ⟨.str "123", "G", "d", true, false, false⟩ (by decide)).1,
   (create_dataset_fresh_inserts []
      ⟨.str "123", "G", "d", true, false, false⟩ (by decide)).2.1⟩

/-- Claim C5 counterexample: a payload whose six required keys are all
present but whose fetcher_active value is a string (wrong type for the
declared boolean field) is parsed successfully — the claim says parsing
must fail on a wrong-typed field. -/
theorem from_dict_accepts_mistyped_fields :
    CreateDatasetRequest.from_dict mistypedCreatePayload =
      .ok ⟨.jstr "1", .jstr "G", .jstr "d", .jstr "yes", .jbool true,
           .jbool false⟩ := by
  rfl

/-- Claim C5 amended: parsing a create payload succeeds iff all six
required keys are present — values are not type-checked — and whenever it
fails, the failure is MalformedRequest. -/
theorem from_dict_ok_iff_keys_present (d : Dict) :
    ((CreateDatasetRequest.from_dict d).isOk = true ↔
      ((d.lookup "privacy_group_id").isSome = true ∧
       (d.lookup "privacy_group_name").isSome = true ∧
       (d.lookup "description").isSome = true ∧
       (d.lookup "fetcher_active").isSome = true ∧
       (d.lookup "matcher_active").isSome = true ∧
       (d.lookup "write_back").isSome = true)) ∧
    ((CreateDatasetRequest.from_dict d).isOk = false →
      CreateDatasetRequest.from_dict d = .error .MalformedRequest) := by
  unfold CreateDatasetRequest.from_dict dictGet
  cases d.lookup "privacy_group_id" <;>
    cases d.lookup "privacy_group_name" <;>
      cases d.lookup "description" <;>
        cases d.lookup "fetcher_active" <;>
          cases d.lookup "matcher_active" <;>
            cases d.lookup "write_back" <;>
              simp [Except.isOk, Except.toBool, bind, Except.bind, pure,
                    Except.pure]

/-- Witness for C5's amended claim: the empty payload fails with
MalformedRequest. -/
theorem from_dict_ok_iff_keys_present_witness :
    CreateDatasetRequest.from_dict [] = .error .MalformedRequest :=
  (from_dict_ok_iff_keys_present []).2 (by rfl)

/-- Claim C6: Delete fails with NotFound exactly when no record carries
the id; on an existing id it answers the fixed message and the record is
gone from a subsequent List. -/
theorem delete_dataset_notfound_iff_and_removes (s : Store) (k : PGId) :
    ((delete_dataset s k).2 = .error (.NotFound (pyStr k)) ↔
      ThreatExchangeConfig.get s (pyStr k) = none) ∧
    (∀ c, ThreatExchangeConfig.get s (pyStr k) = some c →
      (delete_dataset s k).2 = .ok ⟨"The privacy group is deleted"⟩ ∧
      ∀ d ∈ (datasets (delete_dataset s k).1).datasets_response,
        d.privacy_group_id ≠ .str (pyStr k)) := by
  cases hg : ThreatExchangeConfig.get s (pyStr k) with
  | none =>
      refine ⟨⟨fun _ => rfl, fun _ => by simp [delete_dataset, hg]⟩, ?_⟩
      intro c hc
      simp at hc
  | some c =>
      have hcname : c.name = pyStr k := name_eq_of_get _ _ _ hg
      refine ⟨⟨fun he => ?_, fun hn => ?_⟩, ?_⟩
      · exfalso
        simp [delete_dataset, hg] at he
      · simp at hn
      · intro c' hc'
        refine ⟨by simp [delete_dataset, hg], ?_⟩
        intro d hd
        have h1 : (delete_dataset s k).1 = delete_config s c := by
          simp [delete_dataset, hg]
        rw [h1] at hd
        unfold datasets ThreatExchangeConfig.get_all delete_config at hd
        rcases List.mem_map.mp hd with ⟨cc, hcc, rfl⟩
        have hne := (List.mem_filter.mp hcc).2
        rw [bne_iff_ne] at hne
        simp [Dataset.from_collab, ThreatExchangeConfig.privacy_group_id]
        rw [← hcname]
        exact hne

/-- Witness for C6 on a store holding the id being deleted. -/
theorem delete_dataset_notfound_iff_and_removes_witness :
    (delete_dataset [⟨"5", "G", "d", true, true, true, true⟩]
        (.str "5")).2 =
      .ok ⟨"The privacy group is deleted"⟩ :=
  ((delete_dataset_notfound_iff_and_removes
      [⟨"5", "G", "d", true, true, true, true⟩] (.str "5")).2
    ⟨"5", "G", "d", true, true, true, true⟩ (by decide)).1

/-- Sync appends only records whose keys were absent from the store it
started from; every pre-existing record survives unchanged and in
place. -/
theorem sync_privacy_groups_appends (remote : List RemoteCollab) (s : Store) :
    ∃ new, sync_privacy_groups s remote = s ++ new ∧
      ∀ c ∈ new, ThreatExchangeConfig.get s c.name = none := by
  induction remote generalizing s with
  | nil => exact ⟨[], by simp [sync_privacy_groups], by simp⟩
  | cons collab rest ih =>
    have hstep : sync_privacy_groups s (collab :: rest) =
        sync_privacy_groups
          (create_privacy_group_if_not_exists s collab.id collab.name
            collab.description true true true true) rest := by
      simp [sync_privacy_groups]
    cases hg : ThreatExchangeConfig.get s collab.id with
    | some c =>
        have hc : create_privacy_group_if_not_exists s collab.id collab.name
            collab.description true true true true = s := by
          simp [create_privacy_group_if_not_exists, hg]
        rw [hstep, hc]
        exact ih s
    | none =>
        have hc : create_privacy_group_if_not_exists s collab.id collab.name
            collab.description true true true true =
            s ++ [⟨collab.id, collab.name, collab.description,
                   true, true, true, true⟩] := by
          simp [create_privacy_group_if_not_exists, hg]
        obtain ⟨new, h1, h2⟩ := ih (s ++ [⟨collab.id, collab.name,
          collab.description, true, true, true, true⟩])
        refine ⟨⟨collab.id, collab.name, collab.description,
                 true, true, true, true⟩ :: new, ?_, ?_⟩
        · rw [hstep, hc, h1, List.append_assoc]
          rfl
        · intro c hcmem
          rcases List.mem_cons.mp hcmem with hEq | hmem
          · subst hEq
            exact hg
          · exact get_prefix_none s _ _ (h2 c hmem)

/-- Claim C7: Sync answers the fixed message and never overwrites any
field of an already stored record: the resulting store is the old store
followed by records whose ids were absent locally. -/
theorem sync_datasets_inserts_only_missing
    (s : Store) (remote : List RemoteCollab) :
    (sync_datasets s remote).2 = ⟨"Privacy groups are up to date"⟩ ∧
    ∃ new, (sync_datasets s remote).1 = s ++ new ∧
      ∀ c ∈ new, ThreatExchangeConfig.get s c.name = none :=
  ⟨rfl, sync_privacy_groups_appends remote s⟩

/-- Witness for C7 at a concrete store and remote list. -/
theorem sync_datasets_inserts_only_missing_witness :
    (sync_datasets [⟨"1", "G", "d", false, false, false, true⟩]
        [⟨"1", "R", "r"⟩, ⟨"2", "S", "s"⟩]).2 =
      ⟨"Privacy groups are up to date"⟩ :=
  (sync_datasets_inserts_only_missing
    [⟨"1", "G", "d", false, false, false, true⟩]
    [⟨"1", "R", "r"⟩, ⟨"2", "S", "s"⟩]).1

/-- Claim C8: List answers one wire record per stored config, in store
enumeration order, each carrying all seven fields of its config, with no
filtering. -/
theorem datasets_projects_each_record (s : Store) (i : Nat)
    (h : i < (ThreatExchangeConfig.get_all s).length) :
    (datasets s).datasets_response.length =
      (ThreatExchangeConfig.get_all s).length ∧
    (datasets s).datasets_response[i]? =
      some ⟨.str ((ThreatExchangeConfig.get_all s).get ⟨i, h⟩).privacy_group_id,
            ((ThreatExchangeConfig.get_all s).get ⟨i, h⟩).privacy_group_name,
            ((ThreatExchangeConfig.get_all s).get ⟨i, h⟩).description,
            ((ThreatExchangeConfig.get_all s).get ⟨i, h⟩).fetcher_active,
            ((ThreatExchangeConfig.get_all s).get ⟨i, h⟩).matcher_active,
            ((ThreatExchangeConfig.get_all s).get ⟨i, h⟩).write_back,
            ((ThreatExchangeConfig.get_all s).get ⟨i, h⟩).in_use⟩ := by
  constructor
  · simp [datasets]
  · unfold datasets ThreatExchangeConfig.get_all at *
    rw [List.getElem?_map, List.getElem?_eq_getElem h]
    simp [Dataset.from_collab, ThreatExchangeConfig.privacy_group_id]

/-- Witness for C8 on a two-record store. -/
theorem datasets_projects_each_record_witness :
    (datasets [⟨"1", "G", "d", true, false, true, true⟩,
               ⟨"2", "H", "e", false, true, false, false⟩]).datasets_response.length = 2 ∧
    (datasets [⟨"1", "G", "d", true, false, true, true⟩,
               ⟨"2", "H", "e", false, true, false, false⟩]).datasets_response[1]? =
      some ⟨.str "2", "H", "e", false, true, false, false⟩ :=
  datasets_projects_each_record
    [⟨"1", "G", "d", true, false, true, true⟩,
     ⟨"2", "H", "e", false, true, false, false⟩] 1 (by decide)

/-- Claim C9: on a successful lookup, Update persists the store write
first; the response id is int() of the stored record's name, so when that
name is not a decimal-integer string the operation raises ValueError even
though the store has already been mutated. -/
theorem update_dataset_persists_before_response
    (s : Store) (r : UpdateDatasetRequest) (c : ThreatExchangeConfig)
    (h : ThreatExchangeConfig.get s (pyStr r.privacy_group_id) = some c) :
    (update_dataset s r).1 = update_config s (applyUpdate c r) ∧
    ThreatExchangeConfig.get (update_dataset s r).1
        (pyStr r.privacy_group_id) = some (applyUpdate c r) ∧
    (∀ k, pyInt c.name = some k →
      (update_dataset s r).2 =
        .ok ⟨.int k, (applyUpdate c r).privacy_group_name,
             (applyUpdate c r).description,
             (applyUpdate c r).fetcher_active,
             (applyUpdate c r).matcher_active,
             (applyUpdate c r).write_back,
             (applyUpdate c r).in_use⟩) ∧
    (pyInt c.name = none → (update_dataset s r).2 = .error .ValueError) := by
  have hcname : c.name = pyStr r.privacy_group_id := name_eq_of_get _ _ _ h
  have hfst : (update_dataset s r).1 = update_config s (applyUpdate c r) := by
    unfold update_dataset
    rw [h]
    cases hp : pyInt c.name <;> simp [hp, applyUpdate]
  refine ⟨hfst, ?_, ?_, ?_⟩
  · rw [hfst]
    exact get_update_config_of_get s _ c _ h hcname
  · intro k hk
    unfold update_dataset
    rw [h]
    simp [hk, applyUpdate]
  · intro hbad
    unfold update_dataset
    rw [h]
    simp [hbad]

/-- Witness for C9: a record keyed "abc" is updated in place, yet the
call reports ValueError because int("abc") fails; records keyed "1_0",
" 5 " and an Arabic-Indic five — all accepted by int() — take the
success path instead. -/
theorem update_dataset_persists_before_response_witness :
    ((update_dataset [⟨"abc", "G", "d", false, false, false, true⟩]
        ⟨.str "abc", true, false, true⟩).2 = .error .ValueError ∧
      ThreatExchangeConfig.get
          (update_dataset [⟨"abc", "G", "d", false, false, false, true⟩]
            ⟨.str "abc", true, false, true⟩).1 "abc" =
        some ⟨"abc", "G", "d", true, false, true, true⟩) ∧
    (update_dataset [⟨"1_0", "G", "d", false, false, false, true⟩]
        ⟨.str "1_0", true, false, true⟩).2 =
      .ok ⟨.int 10, "G", "d", true, false, true, true⟩ ∧
    (update_dataset [⟨" 5 ", "G", "d", false, false, false, true⟩]
        ⟨.str " 5 ", true, false, true⟩).2 =
      .ok ⟨.int 5, "G", "d", true, false, true, true⟩ ∧
    (update_dataset [⟨"٥", "G", "d", false, false, false, true⟩]
        ⟨.str "٥", true, false, true⟩).2 =
      .ok ⟨.int 5, "G", "d", true, false, true, true⟩ :=
  ⟨⟨(update_dataset_persists_before_response
       [⟨"abc", "G", "d", false, false, false, true⟩]
       ⟨.str "abc", true, false, true⟩
       ⟨"abc", "G", "d", false, false, false, true⟩ (by decide)).2.2.2
       (by decide),
    (update_dataset_persists_before_response
       [⟨"abc", "G", "d", false, false, false, true⟩]
       ⟨.str "abc", true, false, true⟩
       ⟨"abc", "G", "d", false, false, false, true⟩ (by decide)).2.1⟩,
   (update_dataset_persists_before_response
      [⟨"1_0", "G", "d", false, false, false, true⟩]
      ⟨.str "1_0", true, false, true⟩
      ⟨"1_0", "G", "d", false, false, false, true⟩ (by decide)).2.2.1
      10 (by decide),
   (update_dataset_persists_before_response
      [⟨" 5 ", "G", "d", false, false, false, true⟩]
      ⟨.str " 5 ", true, false, true⟩
      ⟨" 5 ", "G", "d", false, false, false, true⟩ (by decide)).2.2.1
      5 (by decide),
   (update_dataset_persists_before_response
      [⟨"٥", "G", "d", false, false, false, true⟩]
      ⟨.str "٥", true, false, true⟩
      ⟨"٥", "G", "d", false, false, false, true⟩ (by decide)).2.2.1
      5 (by decide)⟩

end DatasetsApi
